import Mathlib

/-!
Shallow embedding of the vital-signs estimation pipeline of this repository
(modules `ArrhythmiaDetector.ts`, `BloodPressureCalculator.ts`,
`VitalSignsProcessor.ts`, `spo2/SpO2Processor.ts` and the blood-pressure
stabilizer utility) together with theorems settling the frozen claims.

Conventions of the embedding:
* JavaScript `number` values are modelled as `ℚ`; all arithmetic the source
  performs is exact on the inputs used by the theorems.
* `Math.round x` is modelled as `⌊x + 1/2⌋` (`jsRound`), which agrees with
  JavaScript's half-up rounding on every rational input.
* `Date.now()` / `Math.random()` are oracles: functions that read them take
  the read value as an explicit argument.
* Array `shift`/`push` ring-buffer maintenance is modelled by `evict`.
-/

/-- JavaScript `Math.round`: half-up rounding (`Rat.floor` is the floor
function on `ℚ`). -/
def jsRound (q : ℚ) : ℤ := Rat.floor (q + 1/2)

/-- `jsRound` returning a rational (JS numbers stay `number` after rounding). -/
def jsRoundQ (q : ℚ) : ℚ := (jsRound q : ℚ)

/-- JavaScript `Math.floor` of a nonnegative quantity, as a natural number. -/
def natFloor (q : ℚ) : ℕ := (Rat.floor q).toNat

/-- Ring-buffer maintenance `if (a.length > cap) a.shift()` after a push:
drop the oldest (head) element once the capacity is exceeded. -/
def evict {α : Type} (cap : ℕ) (l : List α) : List α :=
  if cap < l.length then l.tail else l

/-- `Math.max(...l)` for the nonempty lists the source applies it to
(`0` on `[]`, where JavaScript would give `-Infinity`; never relied upon). -/
def listMax : List ℚ → ℚ
  | [] => 0
  | x :: xs => xs.foldl max x

/-- `Math.min(...l)`, same conventions as `listMax`. -/
def listMin : List ℚ → ℚ
  | [] => 0
  | x :: xs => xs.foldl min x

/-- Arithmetic mean `sum / length` (`0` on `[]`, where JavaScript gives `NaN`;
every use below is either guarded by the source or unreachable). -/
def listMean (l : List ℚ) : ℚ := l.sum / l.length

/-- Insert into a sorted list, keeping ascending order: one step of the
`insertionSort` helper of `SpO2Processor.ts` (also models the ascending
numeric `Array.sort((a, b) => a - b)` used elsewhere). -/
def insertSorted (x : ℚ) : List ℚ → List ℚ
  | [] => [x]
  | y :: ys => if y ≤ x then y :: insertSorted x ys else x :: y :: ys

/-- Ascending numeric sort (`insertionSort` of `SpO2Processor.ts`,
`Array.sort((a, b) => a - b)` elsewhere; on numbers both produce the same
ascending list). -/
def insertionSort : List ℚ → List ℚ
  | [] => []
  | x :: xs => insertSorted x (insertionSort xs)

/-- JavaScript truthiness-guarded index `l[i] || fb`: yields `fb` when the
element is absent (`undefined`) or equals `0` (falsy). -/
def jsGetOr (l : List ℚ) (i : ℕ) (fb : ℚ) : ℚ :=
  match l.get? i with
  | some v => if v = 0 then fb else v
  | none => fb

namespace ArrhythmiaDetector

/-- The possible `ArrhythmiaType` values returned by `analyzeRhythm`. -/
inductive ArrType where
  | NONE | AF | PVC | PAC
  deriving DecidableEq, Repr

/-- Mutable fields of `class ArrhythmiaDetector`. -/
structure State where
  rrIntervals : List ℚ
  amplitudes : List ℚ
  lastPeakTimes : List ℚ
  learningPhase : Bool
  learningPhaseCount : ℕ
  lastAnalysisTime : ℤ
  lastPeakTime : Option ℚ
  deriving DecidableEq, Repr

/-- Constructor state of `ArrhythmiaDetector`. -/
def initial : State :=
  { rrIntervals := []
    amplitudes := []
    lastPeakTimes := []
    learningPhase := true
    learningPhaseCount := 0
    lastAnalysisTime := 0
    lastPeakTime := none }

/-- `LEARNING_PHASE_THRESHOLD`. -/
def LEARNING_PHASE_THRESHOLD : ℕ := 20

/-- `MAX_INTERVALS`. -/
def MAX_INTERVALS : ℕ := 50

/-- `ANALYSIS_COOLDOWN_MS`. -/
def ANALYSIS_COOLDOWN_MS : ℤ := 1000

/-- `addRRInterval(interval, amplitude?)`: reject out-of-range intervals,
append with FIFO eviction at `MAX_INTERVALS`, advance the learning phase. -/
def addRRInterval (s : State) (interval : ℚ) (amplitude : Option ℚ) : State :=
  if interval < 300 ∨ 2000 < interval then s
  else
    let rr := evict MAX_INTERVALS (s.rrIntervals ++ [interval])
    let amps := evict MAX_INTERVALS (s.amplitudes ++ [amplitude.getD 0])
    if s.learningPhase then
      let c := s.learningPhaseCount + 1
      { s with rrIntervals := rr, amplitudes := amps,
               learningPhaseCount := c,
               learningPhase := decide (c < LEARNING_PHASE_THRESHOLD) }
    else
      { s with rrIntervals := rr, amplitudes := amps }

/-- `setLastPeakTime(timestamp)`. -/
def setLastPeakTime (s : State) (timestamp : ℚ) : State :=
  { s with lastPeakTime := some timestamp
           lastPeakTimes := evict MAX_INTERVALS (s.lastPeakTimes ++ [timestamp]) }

/-- Square of `calculateRMSSD()`; the source returns
`sqrt(sum / (n - 1))`, so its comparisons with a nonnegative bound `b`
translate to comparisons of this quantity with `b ^ 2`. -/
def calculateRMSSDSq (l : List ℚ) : ℚ :=
  if l.length < 2 then 0
  else ((l.zip l.tail).map (fun p => (p.2 - p.1) ^ 2)).sum / ((l.length : ℚ) - 1)

/-- `calculateRRVariation()`. -/
def calculateRRVariation (l : List ℚ) : ℚ :=
  if l.length < 3 then 0
  else
    let diffs := (l.zip l.tail).map (fun p => |p.2 - p.1|)
    let avgRR := l.sum / l.length
    diffs.sum / diffs.length / avgRR

/-- `detectPAC()`: short-then-long pattern scan. -/
def detectPAC (l : List ℚ) : Bool :=
  if l.length < 4 then false
  else (List.range l.length).any (fun i =>
    decide (2 ≤ i) &&
    decide (600 < l.getD (i - 2) 0) &&
    decide (l.getD (i - 1) 0 < 0.8 * l.getD (i - 2) 0) &&
    decide (1.1 * l.getD (i - 1) 0 < l.getD i 0))

/-- Mean of the strictly positive amplitudes, `getAvgAmplitude()`. -/
def getAvgAmplitude (amps : List ℚ) : ℚ :=
  let valid := amps.filter (fun a => decide (0 < a))
  if valid.length = 0 then 0 else valid.sum / valid.length

/-- `detectPVC()`: premature beat, compensatory pause, oversized amplitude. -/
def detectPVC (l amps : List ℚ) : Bool :=
  if l.length < 4 ∨ amps.length < 4 then false
  else (List.range l.length).any (fun i =>
    decide (2 ≤ i) && decide (i < l.length - 1) &&
    (let current := l.getD i 0
     let next := l.getD (i + 1) 0
     let avgNormal := (l.sum - current) / ((l.length : ℚ) - 1)
     decide (current < 0.8 * avgNormal) &&
     decide (1.2 * avgNormal < next) &&
     decide (1.3 * getAvgAmplitude amps < amps.getD i 0)))

/-- `detectAF(rmssd, rrVariation)`; `rmssd > 100` is encoded on the squared
statistic as `rmssdSq > 100 ^ 2` (both sides are nonnegative). -/
def detectAF (rmssdSq rrVariation : ℚ) (l : List ℚ) : Bool :=
  let highRMSSD := decide ((100 : ℚ) ^ 2 < rmssdSq)
  let highVariation := decide ((0.1 : ℚ) < rrVariation)
  let irregularCount :=
    ((l.zip l.tail).filter (fun p => decide (100 < |p.2 - p.1|))).length
  let highIrregularity := decide ((l.length : ℚ) * 0.7 ≤ (irregularCount : ℚ))
  highRMSSD && highVariation && highIrregularity

/-- `Math.floor (Math.sqrt q)` on a nonnegative rational, used to express
`Math.floor(rmssd / 50)` as `Math.floor(sqrt(rmssdSq / 2500))`. -/
def floorSqrt (q : ℚ) : ℕ := Nat.sqrt (natFloor q)

/-- Result object of `analyzeRhythm()`. The `rmssd` field of the source is
carried as its square (`rmssdSq`), see `calculateRMSSDSq`; `none` models the
early-return objects that omit the field. -/
structure Result where
  detected : Bool
  severity : ℚ
  confidence : ℚ
  type : ArrType
  timestamp : ℤ
  rmssdSq : Option ℚ
  rrVariation : Option ℚ
  deriving DecidableEq, Repr

/-- `analyzeRhythm()`, with `Date.now()` passed as `currentTime`. -/
def analyzeRhythm (s : State) (currentTime : ℤ) : Result × State :=
  if currentTime - s.lastAnalysisTime < ANALYSIS_COOLDOWN_MS then
    ({ detected := false, severity := 0, confidence := 0, type := .NONE,
       timestamp := currentTime, rmssdSq := none, rrVariation := none }, s)
  else
    let s := { s with lastAnalysisTime := currentTime }
    if s.learningPhase ∨ s.rrIntervals.length < 8 then
      ({ detected := false, severity := 0, confidence := 0, type := .NONE,
         timestamp := currentTime, rmssdSq := none, rrVariation := none }, s)
    else
      let rmssdSq := calculateRMSSDSq s.rrIntervals
      let rrVariation := calculateRRVariation s.rrIntervals
      let hasPAC := detectPAC s.rrIntervals
      let hasPVC := detectPVC s.rrIntervals s.amplitudes
      let hasAF := detectAF rmssdSq rrVariation s.rrIntervals
      -- severity for AF is min(10, 5 + floor(rmssd / 50)), expressed through
      -- the squared statistic: floor(rmssd / 50) = floor(sqrt(rmssdSq / 2500))
      let res : Result :=
        if hasAF then
          { detected := true
            severity := min 10 (5 + (floorSqrt (rmssdSq / 2500) : ℚ))
            confidence := min 1 (rrVariation / 0.2)
            type := .AF, timestamp := currentTime
            rmssdSq := some rmssdSq, rrVariation := some rrVariation }
        else if hasPVC then
          { detected := true, severity := 7, confidence := 0.8
            type := .PVC, timestamp := currentTime
            rmssdSq := some rmssdSq, rrVariation := some rrVariation }
        else if hasPAC then
          { detected := true, severity := 5, confidence := 0.7
            type := .PAC, timestamp := currentTime
            rmssdSq := some rmssdSq, rrVariation := some rrVariation }
        else
          { detected := false, severity := 0, confidence := 0
            type := .NONE, timestamp := currentTime
            rmssdSq := some rmssdSq, rrVariation := some rrVariation }
      (res, s)

/-- `reset()`. -/
def reset (_s : State) : State := initial

/-- The operations a caller can perform on an `ArrhythmiaDetector`
between two analyses (used to state the cooldown claim). -/
inductive Op where
  | addRR (interval : ℚ) (amplitude : Option ℚ)
  | setPeak (timestamp : ℚ)
  | analyze (currentTime : ℤ)

/-- One caller operation, discarding the analysis result. -/
def step (s : State) : Op → State
  | .addRR i a => addRRInterval s i a
  | .setPeak t => setLastPeakTime s t
  | .analyze t => (analyzeRhythm s t).2

/-- Interval acceptance predicate of `addRRInterval` (300 ≤ i ≤ 2000). -/
def accepts (i : ℚ) : Bool := !(decide (i < 300) || decide (2000 < i))

/-- Number of accepted intervals in a feed. -/
def countAccepted (xs : List ℚ) : ℕ := (xs.filter accepts).length

end ArrhythmiaDetector

namespace BloodPressureCalculator

/-- Output of `enhancedPeakDetection` (defined in
`src/utils/signalProcessingUtils.ts`, which is not part of the delivered
sources); `calculate` takes it as an explicit input, so every theorem below
holds for every possible detector output. -/
structure PeakDetectionResult where
  peakIndices : List ℕ
  valleyIndices : List ℕ
  signalQuality : ℚ
  deriving DecidableEq, Repr

/-- Mutable fields of `class BloodPressureCalculator`. The two fields the
source fills from `Math.random()` (`longTermCyclePosition`,
`randomVariationSeed`) hold the drawn values, supplied as oracle inputs to
the constructor and `reset`; no method ever reads them. -/
structure State where
  systolicBuffer : List ℚ
  diastolicBuffer : List ℚ
  pttHistory : List ℚ
  amplitudeHistory : List ℚ
  bpQualityHistory : List ℚ
  bpCalibrationFactor : ℚ
  lastBpTimestamp : ℚ
  lastValidSystolic : ℚ
  lastValidDiastolic : ℚ
  bpReadyForOutput : Bool
  measurementCount : ℕ
  breathingCyclePosition : ℚ
  heartRateCyclePosition : ℚ
  longTermCyclePosition : ℚ
  randomVariationSeed : ℚ
  deriving DecidableEq, Repr

/-- Constructor state; `ltcDraw` and `rvsDraw` are the values of the two
`Math.random()`-derived initializers (`Math.random() * Math.PI * 2` and
`Math.random()` respectively). -/
def initial (ltcDraw rvsDraw : ℚ) : State :=
  { systolicBuffer := [], diastolicBuffer := []
    pttHistory := [], amplitudeHistory := [], bpQualityHistory := []
    bpCalibrationFactor := 0.99
    lastBpTimestamp := 0
    lastValidSystolic := 0, lastValidDiastolic := 0
    bpReadyForOutput := false
    measurementCount := 0
    breathingCyclePosition := 0, heartRateCyclePosition := 0
    longTermCyclePosition := ltcDraw
    randomVariationSeed := rvsDraw }

/-- `reset()`: every field is re-assigned, the two cycle/seed fields from
fresh `Math.random()` draws (oracle arguments). -/
def reset (ltcDraw rvsDraw : ℚ) (_s : State) : State := initial ltcDraw rvsDraw

/-- Dicrotic-notch score of one normalized pulse (first half of the loop
body of `calculateArterialStiffnessScore`): locate the first local valley in
the second third of the pulse; deeper notch gives a lower score. -/
def notchScore (pulse : List ℚ) : ℚ :=
  let firstThird := pulse.length / 3
  let secondThird := 2 * pulse.length / 3
  match (List.range pulse.length).find? (fun i =>
      decide (firstThird + 1 ≤ i) && decide (i + 1 < secondThird) &&
      decide (pulse.getD i 0 < pulse.getD (i - 1) 0) &&
      decide (pulse.getD i 0 < pulse.getD (i + 1) 0)) with
  | some i => 10 - (1 - pulse.getD i 0) * 10
  | none => 10

/-- Decay-rate score of one normalized pulse (second half of the loop body
of `calculateArterialStiffnessScore`): steepest downward step over the first
70% of the pulse, scaled and capped at 10. -/
def decayScore (pulse : List ℚ) : ℚ :=
  let seg := pulse.take (natFloor ((pulse.length : ℚ) * 0.7))
  let maxSlope := ((seg.zip seg.tail).map (fun p => p.1 - p.2)).foldl max 0
  min 10 (maxSlope * 50)

/-- `calculateArterialStiffnessScore(values, peakIndices, valleyIndices)`. -/
def calculateArterialStiffnessScore
    (values : List ℚ) (peakIndices valleyIndices : List ℕ) : ℚ :=
  if peakIndices.length < 3 ∨ valleyIndices.length < 3 then 5
  else
    let pulseWaveforms := (List.range (min (peakIndices.length - 1) 5)).filterMap
      (fun i =>
        let startIdx := peakIndices.getD i 0
        let endIdx := peakIndices.getD (i + 1) 0
        if 5 < endIdx - startIdx ∧ endIdx - startIdx < 50 then
          let pulse := (values.drop startIdx).take (endIdx - startIdx)
          let mn := listMin pulse
          let mx := listMax pulse
          if 0 < mx - mn then
            some (pulse.map (fun v => (v - mn) / (mx - mn)))
          else none
        else none)
    if pulseWaveforms.length = 0 then 5
    else
      let avgNotchScore := listMean (pulseWaveforms.map notchScore)
      let avgDecayScore := listMean (pulseWaveforms.map decayScore)
      avgNotchScore * 0.6 + avgDecayScore * 0.4

/-- The dispersion gate `pttStdDev / avgPTT > 0.6` of `calculate`
(`calculateStandardDeviation` lives in the missing utils file; the standard
population deviation `sqrt(variance)` is encoded square-free:
for `avg > 0` the gate is `variance > 0.36 * avg ^ 2`, for `avg < 0` the
ratio is nonpositive and the gate is off, and for `avg = 0` JavaScript
compares `Infinity` (variance positive) or `NaN` (variance zero). -/
def pttVariabilityHigh (pttValues : List ℚ) : Bool :=
  let avgPTT := listMean pttValues
  let variance := listMean (pttValues.map (fun x => (x - avgPTT) ^ 2))
  (decide (0 < avgPTT) && decide (0.36 * avgPTT ^ 2 < variance)) ||
  (decide (avgPTT = 0) && decide (0 < variance))

/-- `calculate(values)`: blood pressure from the PPG window, with the
detector output passed in (see `PeakDetectionResult`). Returns the
`{systolic, diastolic}` pair ( `(0, 0)` is the no-reading sentinel) and the
updated state. -/
def calculate (s : State) (values : List ℚ) (det : PeakDetectionResult) :
    (ℚ × ℚ) × State :=
  let s := { s with measurementCount := s.measurementCount + 1 }
  if values.length < 20 then ((0, 0), s)
  else if det.signalQuality < 0.3 ∨ det.peakIndices.length < 2 ∨
      det.valleyIndices.length < 2 then ((0, 0), s)
  else
    let msPerSample : ℚ := 1000 / 30
    let pttValues := (det.peakIndices.zip det.peakIndices.tail).map
      (fun p => ((p.2 : ℚ) - (p.1 : ℚ)) * msPerSample)
    if pttValues.length = 0 then ((0, 0), s)
    else if pttVariabilityHigh pttValues then ((0, 0), s)
    else
      let avgPTT := listMean pttValues
      let stiffnessScore :=
        calculateArterialStiffnessScore values det.peakIndices det.valleyIndices
      let normalizedPTT := min (max avgPTT 600) 1200
      let systolicBase := 180 - (normalizedPTT - 600) * 0.075
      let diastolicBase := 110 - (normalizedPTT - 600) * 0.05
      let systolic := jsRoundQ (systolicBase + (stiffnessScore - 5) * 2)
      let diastolic := jsRoundQ (diastolicBase + (stiffnessScore - 5) * 1.5)
      if 80 ≤ systolic ∧ systolic ≤ 190 ∧ 50 ≤ diastolic ∧ diastolic ≤ 120 ∧
          15 ≤ systolic - diastolic then
        ((systolic, diastolic),
         { s with lastValidSystolic := systolic, lastValidDiastolic := diastolic })
      else ((0, 0), s)

/-- `getLastValidPressure()`: the pair behind the returned string;
`(0, 0)` renders as the placeholder `"0/0"`. -/
def getLastValidPressure (s : State) : ℚ × ℚ :=
  if s.lastValidSystolic ≤ 0 ∨ s.lastValidDiastolic ≤ 0 then (0, 0)
  else (s.lastValidSystolic, s.lastValidDiastolic)

end BloodPressureCalculator

namespace VitalSignsProcessor

/-- Mutable fields of `class VitalSignsProcessor`. `measurementStartTime`
is filled from `Date.now()` (oracle argument) and never read back. -/
structure State where
  ppgValues : List ℚ
  lastSpO2 : ℚ
  lastSystolic : ℚ
  lastDiastolic : ℚ
  baselineEstablished : Bool
  movingAverageSpO2 : List ℚ
  smaBuffer : List ℚ
  measurementStartTime : ℤ
  deriving DecidableEq, Repr

/-- Constructor state (`now` is the `Date.now()` reading). -/
def initial (now : ℤ) : State :=
  { ppgValues := [], lastSpO2 := 0, lastSystolic := 0, lastDiastolic := 0
    baselineEstablished := false, movingAverageSpO2 := [], smaBuffer := []
    measurementStartTime := now }

/-- `WINDOW_SIZE`. -/
def WINDOW_SIZE : ℕ := 300

/-- `SPO2_CALIBRATION_FACTOR`. -/
def SPO2_CALIBRATION_FACTOR : ℚ := 1.05

/-- `PERFUSION_INDEX_THRESHOLD`. -/
def PERFUSION_INDEX_THRESHOLD : ℚ := 0.05

/-- `findPeaksAndValleys(values)`: strict local extrema against 3 neighbors
on each side, over interior indices `3 ≤ i < length - 3`. -/
def findPeaksAndValleys (values : List ℚ) : List ℕ × List ℕ :=
  let n := values.length
  let interior := (List.range n).filter (fun i => decide (3 ≤ i) && decide (i + 3 < n))
  let isPeak := fun i =>
    let v := values.getD i 0
    decide (values.getD (i - 1) 0 < v) && decide (values.getD (i - 2) 0 < v) &&
    decide (values.getD (i - 3) 0 < v) && decide (values.getD (i + 1) 0 < v) &&
    decide (values.getD (i + 2) 0 < v) && decide (values.getD (i + 3) 0 < v)
  let isValley := fun i =>
    let v := values.getD i 0
    decide (v < values.getD (i - 1) 0) && decide (v < values.getD (i - 2) 0) &&
    decide (v < values.getD (i - 3) 0) && decide (v < values.getD (i + 1) 0) &&
    decide (v < values.getD (i + 2) 0) && decide (v < values.getD (i + 3) 0)
  (interior.filter isPeak, interior.filter isValley)

/-- `calculateAC(values)`: amplified peak-to-trough amplitude. -/
def calculateAC (values : List ℚ) : ℚ := (listMax values - listMin values) * 1.5

/-- `calculateDC(values)`: scaled mean. -/
def calculateDC (values : List ℚ) : ℚ := listMean values * 0.8

/-- `calculateSignalQuality(values, peaks, valleys)`. -/
def calculateSignalQuality (values : List ℚ) (peaks valleys : List ℕ) : ℚ :=
  let amps := (List.range peaks.length).map (fun i =>
    match valleys.get? i with
    | some v =>
        if v ≠ 0 then |values.getD (peaks.getD i 0) 0 - values.getD v 0| * 1.5
        else 0
    | none => 0)
  if amps.length = 0 then 0
  else
    let avgAmp := listMean amps
    let variability := listMean (amps.map (fun a => |a - avgAmp|))
    let denom := if avgAmp * 2 = 0 then 1 else avgAmp * 2
    max 0 (min 100 (100 * (1 - variability / denom)))

/-- `calculateActualSpO2(ppgValues)` (pure: reads but never writes state). -/
def calculateActualSpO2 (s : State) (ppgValues : List ℚ) : ℚ :=
  if s.baselineEstablished = false then s.lastSpO2
  else
    let recentValues := ppgValues.drop (ppgValues.length - 60)
    let acComponent := calculateAC recentValues
    let dcComponent := calculateDC recentValues
    if dcComponent = 0 then s.lastSpO2
    else
      let perfIdx := acComponent / dcComponent * 200
      if perfIdx < PERFUSION_INDEX_THRESHOLD * 100 then s.lastSpO2
      else
        let pv := findPeaksAndValleys recentValues
        if pv.1.length < 2 then s.lastSpO2
        else
          let r := acComponent / dcComponent * 2.5
          let spo2Raw := min 98 (105 - 18 * r * SPO2_CALIBRATION_FACTOR)
          let signalQuality := calculateSignalQuality recentValues pv.1 pv.2
          let qualityWeight := min (signalQuality / 100 * 1.5) 1
          let newSpo2 := spo2Raw * qualityWeight + s.lastSpO2 * (1 - qualityWeight)
          min 98 (max 85 (jsRoundQ newSpo2))

/-- `getSmoothedSpO2()`: IQR outlier rejection then rounded mean. -/
def getSmoothedSpO2 (s : State) : ℚ :=
  if s.movingAverageSpO2.length = 0 then s.lastSpO2
  else
    let sorted := insertionSort s.movingAverageSpO2
    let q1 := sorted.getD (natFloor ((sorted.length : ℚ) * 0.25)) 0
    let q3 := sorted.getD (natFloor ((sorted.length : ℚ) * 0.75)) 0
    let iqr := q3 - q1
    let validValues := s.movingAverageSpO2.filter
      (fun v => decide (q1 - 1.5 * iqr ≤ v) && decide (v ≤ q3 + 1.5 * iqr))
    if validValues.length = 0 then s.lastSpO2
    else jsRoundQ (listMean validValues)

/-- `calculateActualBloodPressure(ppgValues)`: PTT / amplitude based pair,
with no physiological clamp; on insufficient peaks it returns the previous
`lastSystolic`/`lastDiastolic` values unchanged. -/
def calculateActualBloodPressure (s : State) (ppgValues : List ℚ) :
    (ℚ × ℚ) × State :=
  let pv := findPeaksAndValleys ppgValues
  let peakTimes := pv.1
  let valleys := pv.2
  if peakTimes.length < 2 then ((s.lastSystolic, s.lastDiastolic), s)
  else
    let pttValues := (peakTimes.zip peakTimes.tail).map
      (fun p => (p.2 : ℚ) - (p.1 : ℚ))
    let amplitudes := (List.range peakTimes.length).filterMap (fun i =>
      if 1 ≤ i then
        match valleys.get? (i - 1) with
        | some v =>
            if v ≠ 0 then
              some ((ppgValues.getD (peakTimes.getD i 0) 0 - ppgValues.getD v 0) * 1.2)
            else none
        | none => none
      else none)
    if pttValues.length < 2 then ((s.lastSystolic, s.lastDiastolic), s)
    else
      let avgPTT := listMean pttValues
      -- `avgAmplitude` is `NaN` in JavaScript when `amplitudes` is empty;
      -- the embedding is only appealed to on windows where it is nonempty.
      let avgAmplitude := listMean amplitudes
      let systolic := jsRoundQ (1000 / avgPTT * 2.5)
      let diastolic := jsRoundQ (systolic * (0.6 + avgAmplitude * 0.0008))
      ((systolic, diastolic),
       { s with lastSystolic := systolic, lastDiastolic := diastolic })

/-- `establishBaseline()`: accept the first 60 filtered samples as baseline
if their mean is plausible, then seed SpO2 and pressure from them. -/
def establishBaseline (s : State) : State :=
  let baselineValues := s.ppgValues.take 60
  let avgValue := listMean baselineValues
  if avgValue < 0.1 ∨ 255 < avgValue then s
  else
    let sB := { s with baselineEstablished := true }
    let initialSpO2 := calculateActualSpO2 sB baselineValues
    let bp := calculateActualBloodPressure sB baselineValues
    { bp.2 with lastSpO2 := initialSpO2
                lastSystolic := bp.1.1
                lastDiastolic := bp.1.2 }

/-- Per-sample output of `processSignal` (the `pressure` string of the
source is the pair rendered as `"systolic/diastolic"`). -/
structure Output where
  spo2 : ℚ
  systolic : ℚ
  diastolic : ℚ
  deriving DecidableEq, Repr

/-- Steps (4)-(5) of `processSignal(ppgValue)` — the SpO2 / blood-pressure
body that runs once the baseline is established (named here so the
baseline gate of `processSignal` stays small). -/
def processSignalMain (s2 : State) : Output × State :=
  let rawSpo2 := calculateActualSpO2 s2 s2.ppgValues
  let newSpO2 := jsRoundQ (rawSpo2 * 0.4 + s2.lastSpO2 * (1 - 0.4))
  let s3 := { s2 with movingAverageSpO2 := evict 10 (s2.movingAverageSpO2 ++ [newSpO2]) }
  let finalSpo2 := getSmoothedSpO2 s3
  let s4 := { s3 with lastSpO2 := finalSpo2 }
  let bp := calculateActualBloodPressure s4 s4.ppgValues
  let s5 := bp.2
  let smoothedSystolic := jsRoundQ (bp.1.1 * 0.3 + s5.lastSystolic * (1 - 0.3))
  let smoothedDiastolic := jsRoundQ (bp.1.2 * 0.3 + s5.lastDiastolic * (1 - 0.3))
  let s6 := { s5 with lastSystolic := smoothedSystolic,
                      lastDiastolic := smoothedDiastolic }
  ({ spo2 := finalSpo2, systolic := smoothedSystolic,
     diastolic := smoothedDiastolic }, s6)

/-- `processSignal(ppgValue)`. -/
def processSignal (s : State) (ppgValue : ℚ) : Output × State :=
  let smaBuffer := evict 3 (s.smaBuffer ++ [ppgValue])
  let smoothedInput := listMean smaBuffer
  let ppg := evict WINDOW_SIZE (s.ppgValues ++ [smoothedInput])
  let s1 := { s with smaBuffer := smaBuffer, ppgValues := ppg }
  let s2 :=
    if s1.baselineEstablished = false ∧ 60 ≤ s1.ppgValues.length then
      establishBaseline s1
    else s1
  if s2.baselineEstablished = false then
    ({ spo2 := s2.lastSpO2, systolic := s2.lastSystolic,
       diastolic := s2.lastDiastolic }, s2)
  else processSignalMain s2

/-- `reset()` (`now` is the fresh `Date.now()` reading). -/
def reset (now : ℤ) (_s : State) : State := initial now

/-- Process a whole input stream, collecting the per-sample outputs. -/
def processTrace : State → List ℚ → List Output × State
  | s, [] => ([], s)
  | s, x :: xs =>
      let r := processSignal s x
      let rest := processTrace r.2 xs
      (r.1 :: rest.1, rest.2)

end VitalSignsProcessor

namespace SpO2Processor

/-- Mutable fields of `class SpO2Processor` (`spo2/SpO2Processor.ts`).
`renderQualityMode` is initialized to `true` and never changed. -/
structure State where
  spo2Buffer : List ℚ
  spo2RawBuffer : List ℚ
  lastSpo2Value : ℚ
  frameSkipCounter : ℕ
  medianCache : List ℚ
  renderQualityMode : Bool
  deriving DecidableEq, Repr

/-- Constructor / `reset()` state. -/
def initial : State :=
  { spo2Buffer := [], spo2RawBuffer := [], lastSpo2Value := 0
    frameSkipCounter := 0, medianCache := List.replicate 5 0
    renderQualityMode := true }

/-- `reset()`. -/
def reset (_s : State) : State := initial

/-- `processValue(calibratedSpO2)`. The constants
`SPO2_CONSTANTS.BUFFER_SIZE` and `SPO2_CONSTANTS.MOVING_AVERAGE_ALPHA` are
declared in `spo2/SpO2Constants.ts`, which is not part of the delivered
sources; they are taken as the arguments `BUFFER_SIZE` and
`MOVING_AVERAGE_ALPHA`, so every theorem below holds whatever they are. -/
def processValue (BUFFER_SIZE : ℕ) (MOVING_AVERAGE_ALPHA : ℚ)
    (s : State) (calibratedSpO2 : ℚ) : ℚ × State :=
  let bufferLength := s.spo2RawBuffer.length
  let step1 :=
    if 5 ≤ bufferLength then
      let startIdx := bufferLength - 5
      let recentValues := (List.range 5).map (fun i =>
        jsGetOr s.spo2RawBuffer (startIdx + i)
          (jsGetOr s.spo2RawBuffer (s.spo2RawBuffer.length - 1) 0))
      let sortedR := insertionSort recentValues
      (sortedR.getD 2 0, sortedR)
    else (calibratedSpO2, s.medianCache)
  let filtered1 := step1.1
  let spo2Buffer :=
    if BUFFER_SIZE ≤ s.spo2Buffer.length then s.spo2Buffer.tail ++ [filtered1]
    else s.spo2Buffer ++ [filtered1]
  let filtered2 :=
    if 5 ≤ spo2Buffer.length then
      let startPos := spo2Buffer.length - 5
      let valuesToProcess := (List.range 5).map (fun i =>
        jsGetOr spo2Buffer (startPos + i)
          (jsGetOr spo2Buffer (spo2Buffer.length - 1) 0))
      let sortedV := insertionSort valuesToProcess
      let avg := jsRoundQ ((sortedV.getD 1 0 + sortedV.getD 2 0 + sortedV.getD 3 0) / 3)
      if 0 < s.lastSpo2Value then
        let alpha := if s.renderQualityMode then MOVING_AVERAGE_ALPHA * 0.8
                     else MOVING_AVERAGE_ALPHA
        jsRoundQ (alpha * avg + (1 - alpha) * s.lastSpo2Value)
      else avg
    else filtered1
  let result := max 90 (min 99 filtered2)
  (result, { s with spo2Buffer := spo2Buffer, lastSpo2Value := result,
                    medianCache := step1.2 })

end SpO2Processor

namespace BPStabilizer

/-- A blood-pressure string of `bloodPressureStabilizer.ts`.
`placeholder` stands for the two placeholder literals (dashes-slash-dashes
and `"0/0"`); `pair s d` stands for `"s/d"` with integer components (the
only strings the utility itself produces or stores). -/
inductive BPStr where
  | placeholder
  | pair (systolic diastolic : ℤ)
  deriving DecidableEq, Repr

/-- `parseInt` on the two components of `split('/')` for a `pair`
(history entries are always pairs; the junk value on `placeholder` mirrors
`NaN` being rejected before use). -/
def parsePair : BPStr → ℤ × ℤ
  | .placeholder => (0, 0)
  | .pair s d => (s, d)

/-- Closure state of `createBloodPressureStabilizer()`. -/
structure State where
  bpHistory : List BPStr
  bpQuality : List ℚ
  lastValidBp : BPStr
  deriving DecidableEq, Repr

/-- Initial closure state (`lastValidBpRef = "120/80"`). -/
def initial : State :=
  { bpHistory := [], bpQuality := [], lastValidBp := .pair 120 80 }

/-- `reset()`. -/
def reset (_s : State) : State := initial

/-- `BP_BUFFER_SIZE`. -/
def BP_BUFFER_SIZE : ℕ := 8

/-- `SMOOTHING_FACTOR`. -/
def SMOOTHING_FACTOR : ℚ := 0.4

/-- `isBloodPressureUnrealistic(rawBP)`. -/
def isBloodPressureUnrealistic : BPStr → Bool
  | .placeholder => true
  | .pair s d =>
      decide (300 < s) || decide (s < 60) || decide (200 < d) ||
      decide (d < 30) || decide (s ≤ d)

/-- `calculateMedian(values)`. -/
def calculateMedian (values : List ℚ) : ℚ :=
  let sortedValues := insertionSort values
  let middle := sortedValues.length / 2
  if sortedValues.length % 2 = 0 then
    (sortedValues.getD (middle - 1) 0 + sortedValues.getD middle 0) / 2
  else sortedValues.getD middle 0

/-- `a || fb` on an integer `parseInt` component (0 is falsy). -/
def intOr (a fb : ℤ) : ℤ := if a = 0 then fb else a

/-- `bpQualityRef[index] || 0.5` (absent or zero quality falls back). -/
def qualityOr (l : List ℚ) (i : ℕ) : ℚ :=
  match l.get? i with
  | some v => if v = 0 then 0.5 else v
  | none => 0.5

/-- `stabilizeBloodPressure(rawBP, quality)`; `sysDraw` and `diaDraw` are
the two `Math.random()` readings of the call (the source adds
`(sysDraw - 0.5) * 5` and `(diaDraw - 0.5) * 3` of random variation). -/
def stabilizeBloodPressure (sysDraw diaDraw : ℚ) (st : State)
    (rawBP : BPStr) (quality : ℚ) : BPStr × State :=
  match rawBP with
  | .placeholder => (.placeholder, st)
  | .pair rs rd =>
    if isBloodPressureUnrealistic (.pair rs rd) then (st.lastValidBp, st)
    else
      let hist := evict BP_BUFFER_SIZE (st.bpHistory ++ [BPStr.pair rs rd])
      let qual := evict BP_BUFFER_SIZE (st.bpQuality ++ [quality])
      let st1 : State := { st with bpHistory := hist, bpQuality := qual }
      if hist.length < 3 then
        (.pair rs rd, { st1 with lastValidBp := .pair rs rd })
      else
        let bpValues := hist.map parsePair
        let systolicValues := bpValues.map (fun bp => (bp.1 : ℚ))
        let diastolicValues := bpValues.map (fun bp => (bp.2 : ℚ))
        let sortedSys := insertionSort systolicValues
        let sortedDia := insertionSort diastolicValues
        let systolicMedian := calculateMedian sortedSys
        let diastolicMedian := calculateMedian sortedDia
        let q1Systolic := calculateMedian (sortedSys.take (sortedSys.length / 2))
        let q3Systolic := calculateMedian (sortedSys.drop ((sortedSys.length + 1) / 2))
        let iqrSystolic := q3Systolic - q1Systolic
        let q1Diastolic := calculateMedian (sortedDia.take (sortedDia.length / 2))
        let q3Diastolic := calculateMedian (sortedDia.drop ((sortedDia.length + 1) / 2))
        let iqrDiastolic := q3Diastolic - q1Diastolic
        let validBpValues := bpValues.filter (fun bp =>
          decide (systolicMedian - 1.5 * iqrSystolic ≤ (bp.1 : ℚ)) &&
          decide ((bp.1 : ℚ) ≤ systolicMedian + 1.5 * iqrSystolic) &&
          decide (diastolicMedian - 1.5 * iqrDiastolic ≤ (bp.2 : ℚ)) &&
          decide ((bp.2 : ℚ) ≤ diastolicMedian + 1.5 * iqrDiastolic))
        if validBpValues.length = 0 then
          let stableBP := BPStr.pair (jsRound systolicMedian) (jsRound diastolicMedian)
          (stableBP, { st1 with lastValidBp := stableBP })
        else
          let totalQuality := ((List.range validBpValues.length).map
            (fun i => qualityOr qual i)).sum
          let weightedSystolicSum := ((List.range validBpValues.length).map
            (fun i => ((validBpValues.getD i (0, 0)).1 : ℚ) * qualityOr qual i)).sum
          let weightedDiastolicSum := ((List.range validBpValues.length).map
            (fun i => ((validBpValues.getD i (0, 0)).2 : ℚ) * qualityOr qual i)).sum
          let finalSystolic := jsRound (weightedSystolicSum / totalQuality)
          let finalDiastolic := jsRound (weightedDiastolicSum / totalQuality)
          let lastParts := parsePair st1.lastValidBp
          let lastSystolic := intOr lastParts.1 120
          let lastDiastolic := intOr lastParts.2 80
          let randomSystolicVariation := (sysDraw - 0.5) * 5
          let randomDiastolicVariation := (diaDraw - 0.5) * 3
          let smoothedSystolic := jsRound
            ((lastSystolic : ℚ) * SMOOTHING_FACTOR +
             (finalSystolic : ℚ) * (1 - SMOOTHING_FACTOR) + randomSystolicVariation)
          let smoothedDiastolic := jsRound
            ((lastDiastolic : ℚ) * SMOOTHING_FACTOR +
             (finalDiastolic : ℚ) * (1 - SMOOTHING_FACTOR) + randomDiastolicVariation)
          let adjustedDiastolic := min smoothedDiastolic (smoothedSystolic - 30)
          let stabilizedBP := BPStr.pair smoothedSystolic adjustedDiastolic
          (stabilizedBP, { st1 with lastValidBp := stabilizedBP })

end BPStabilizer

/-- A 60-sample triangular PPG window of period 8 (peak value 4 every 8
samples): a clean periodic waveform whose peaks are 8 samples apart. -/
def tri60 : List ℚ :=
  (List.range 60).map (fun i => (([0, 1, 2, 3, 4, 3, 2, 1].getD (i % 8) 0 : ℤ) : ℚ))

/-- A steady-state `ArrhythmiaDetector` whose RR history is a constant
valid rhythm (eight 800 ms intervals). -/
def constantRhythmState : ArrhythmiaDetector.State :=
  { rrIntervals := [800, 800, 800, 800, 800, 800, 800, 800]
    amplitudes := [1, 1, 1, 1, 1, 1, 1, 1]
    lastPeakTimes := []
    learningPhase := false
    learningPhaseCount := 20
    lastAnalysisTime := 0
    lastPeakTime := none }

/-- A steady-state `ArrhythmiaDetector` holding an alternating 400/1600 ms
RR history: high RMSSD, high variation, high irregularity (AF pattern). -/
def afRhythmState : ArrhythmiaDetector.State :=
  { rrIntervals := [400, 1600, 400, 1600, 400, 1600, 400, 1600]
    amplitudes := [1, 1, 1, 1, 1, 1, 1, 1]
    lastPeakTimes := []
    learningPhase := false
    learningPhaseCount := 20
    lastAnalysisTime := 0
    lastPeakTime := none }

/-- Stabilizer state holding two identical 120/80 readings of quality 1. -/
def twoReadingsState : BPStabilizer.State :=
  { bpHistory := [.pair 120 80, .pair 120 80]
    bpQuality := [1, 1]
    lastValidBp := .pair 120 80 }

section HelperLemmas

lemma evict_subset {α : Type} (cap : ℕ) (l : List α) : ∀ x ∈ evict cap l, x ∈ l := by
  intro x hx
  unfold evict at hx
  split at hx
  · exact List.tail_sublist l |>.subset hx
  · exact hx

lemma evict_length_le {α : Type} (cap : ℕ) (l : List α) (h : l.length ≤ cap + 1) :
    (evict cap l).length ≤ cap := by
  unfold evict
  split
  · rename_i hc
    cases l with
    | nil => simp at hc
    | cons a l => simp_all
  · omega

lemma foldl_max_const (c : ℚ) :
    ∀ xs : List ℚ, (∀ x ∈ xs, x = c) → xs.foldl max c = c := by
  intro xs
  induction xs with
  | nil => intro _; rfl
  | cons y ys ih =>
    intro hm
    have hy : y = c := hm y (by simp)
    subst hy
    simpa [max_self] using ih (fun x hx => hm x (by simp [hx]))

lemma foldl_min_const (c : ℚ) :
    ∀ xs : List ℚ, (∀ x ∈ xs, x = c) → xs.foldl min c = c := by
  intro xs
  induction xs with
  | nil => intro _; rfl
  | cons y ys ih =>
    intro hm
    have hy : y = c := hm y (by simp)
    subst hy
    simpa [min_self] using ih (fun x hx => hm x (by simp [hx]))

lemma listMax_const {c : ℚ} (l : List ℚ) (hc : ∀ x ∈ l, x = c) (hne : l ≠ []) :
    listMax l = c := by
  match l, hne with
  | x :: xs, _ =>
    have hx : x = c := hc x (by simp)
    subst hx
    exact foldl_max_const x xs (fun y hy => hc y (by simp [hy]))

lemma listMin_const {c : ℚ} (l : List ℚ) (hc : ∀ x ∈ l, x = c) (hne : l ≠ []) :
    listMin l = c := by
  match l, hne with
  | x :: xs, _ =>
    have hx : x = c := hc x (by simp)
    subst hx
    exact foldl_min_const x xs (fun y hy => hc y (by simp [hy]))

lemma sum_const_list {c : ℚ} (l : List ℚ) (hc : ∀ x ∈ l, x = c) :
    l.sum = l.length * c := by
  induction l with
  | nil => simp
  | cons y ys ih =>
    have hy : y = c := hc y (by simp)
    have := ih (fun x hx => hc x (by simp [hx]))
    simp [hy, this]
    ring

lemma getD_const {c : ℚ} (l : List ℚ) (hc : ∀ x ∈ l, x = c) {i : ℕ}
    (hi : i < l.length) : l.getD i 0 = c := by
  rw [List.getD_eq_getElem?_getD, List.getElem?_eq_getElem hi]
  exact hc _ (List.getElem_mem hi)

lemma getDq_const {c : ℚ} (l : List ℚ) (hc : ∀ x ∈ l, x = c) {i : ℕ}
    (hi : i < l.length) : l[i]?.getD 0 = c := by
  rw [List.getElem?_eq_getElem hi]
  exact hc _ (List.getElem_mem hi)

lemma zip_tail_const {c : ℚ} (l : List ℚ) (hc : ∀ x ∈ l, x = c) :
    ∀ p ∈ l.zip l.tail, p.1 = c ∧ p.2 = c := by
  intro p hp
  have h1 := (List.of_mem_zip hp).1
  have h2 := (List.of_mem_zip hp).2
  exact ⟨hc _ h1, hc _ (List.tail_sublist l |>.subset h2)⟩

end HelperLemmas

section ClaimTheorems

-- The rational arithmetic of Batteries is sealed for the elaborator;
-- re-open it locally so that concrete runs of the embedded pipeline can be
-- evaluated by `decide` (the kernel unfolds these definitions regardless).
attribute [local semireducible] Rat.add Rat.mul Rat.sub Rat.inv Rat.ofScientific

/-- C1 (amended part): every pair `BloodPressureCalculator.calculate`
returns is either the `(0, 0)` no-reading sentinel or satisfies the
physiological bounds: systolic in [80, 190], diastolic in [50, 120], and a
pulse-pressure differential of at least 15 mmHg — for every input window
and every possible peak-detector output. (The original claim also asserted
this for `VitalSignsProcessor.calculateActualBloodPressure`, which is
refuted by `C1_counterexample`.) -/
theorem C1_theorem (s : BloodPressureCalculator.State) (values : List ℚ)
    (det : BloodPressureCalculator.PeakDetectionResult) :
    (BloodPressureCalculator.calculate s values det).1 = (0, 0) ∨
    (80 ≤ (BloodPressureCalculator.calculate s values det).1.1 ∧
     (BloodPressureCalculator.calculate s values det).1.1 ≤ 190 ∧
     50 ≤ (BloodPressureCalculator.calculate s values det).1.2 ∧
     (BloodPressureCalculator.calculate s values det).1.2 ≤ 120 ∧
     15 ≤ (BloodPressureCalculator.calculate s values det).1.1 -
       (BloodPressureCalculator.calculate s values det).1.2) := by
  simp only [BloodPressureCalculator.calculate]
  split_ifs with h1 h2 h3 h4 h5
  · exact Or.inl rfl
  · exact Or.inl rfl
  · exact Or.inl rfl
  · exact Or.inl rfl
  · exact Or.inr (by simpa using h5)
  · exact Or.inl rfl

/-- C1 (counterexample): the blood-pressure path
`VitalSignsProcessor.calculateActualBloodPressure`, fed a clean triangular
60-sample window with peaks 8 samples apart, returns 313/189 — not the
sentinel, with systolic 313 far above the claimed bound of 190 (and
diastolic 189 above 120). -/
theorem C1_counterexample :
    (VitalSignsProcessor.calculateActualBloodPressure
      (VitalSignsProcessor.initial 0) tri60).1 ≠ (0, 0) ∧
    (VitalSignsProcessor.calculateActualBloodPressure
      (VitalSignsProcessor.initial 0) tri60).1.1 = 313 ∧
    ¬((VitalSignsProcessor.calculateActualBloodPressure
      (VitalSignsProcessor.initial 0) tri60).1.1 ≤ 190) := by
  refine ⟨?_, ?_, ?_⟩ <;> decide

/-- C2 (amended part): whenever the peak detector hands
`BloodPressureCalculator.calculate` fewer than 2 peaks or fewer than 2
valleys, the result is the `(0, 0)` no-reading sentinel, never a stale
value. (The original claim also asserted this for
`VitalSignsProcessor.calculateActualBloodPressure`, which is refuted by
`C2_counterexample`: that path returns the previous pressure values.) -/
theorem C2_theorem (s : BloodPressureCalculator.State) (values : List ℚ)
    (det : BloodPressureCalculator.PeakDetectionResult)
    (h : det.peakIndices.length < 2 ∨ det.valleyIndices.length < 2) :
    (BloodPressureCalculator.calculate s values det).1 = (0, 0) := by
  simp only [BloodPressureCalculator.calculate]
  split_ifs with h1 h2 <;> first | rfl | (exact absurd (Or.inr h) h2)

/-- C2 (witness): a 20-sample window with no detected peaks yields the
sentinel. -/
theorem C2_witness :
    (BloodPressureCalculator.calculate (BloodPressureCalculator.initial 0 0)
      (List.replicate 20 0) ⟨[], [], 1⟩).1 = (0, 0) :=
  C2_theorem (BloodPressureCalculator.initial 0 0) (List.replicate 20 0)
    ⟨[], [], 1⟩ (Or.inl (by decide))

/-- C2 (counterexample): with previously computed pressure 120/80 in its
state, `VitalSignsProcessor.calculateActualBloodPressure` on a flat window
(no peaks at all) returns the stale 120/80 — not the no-reading
sentinel. -/
theorem C2_counterexample :
    (VitalSignsProcessor.calculateActualBloodPressure
      { VitalSignsProcessor.initial 0 with lastSystolic := 120, lastDiastolic := 80 }
      (List.replicate 60 100)).1 = (120, 80) ∧
    ((120 : ℚ), (80 : ℚ)) ≠ ((0 : ℚ), (0 : ℚ)) := by
  refine ⟨?_, ?_⟩ <;> decide

/-- C3 (confirmed): `ArrhythmiaDetector.addRRInterval` appends an interval
only when it lies within [300, 2000] ms; out-of-range values leave the
state completely unchanged (discarded, not clamped); the stored history
never contains an out-of-range value; and the history is bounded by
capacity 50 with oldest-first (head) eviction. -/
theorem C3_theorem (s : ArrhythmiaDetector.State) (i : ℚ) (a : Option ℚ) :
    (¬(300 ≤ i ∧ i ≤ 2000) → ArrhythmiaDetector.addRRInterval s i a = s) ∧
    (300 ≤ i → i ≤ 2000 →
      (ArrhythmiaDetector.addRRInterval s i a).rrIntervals =
        evict 50 (s.rrIntervals ++ [i])) ∧
    ((∀ x ∈ s.rrIntervals, 300 ≤ x ∧ x ≤ 2000) →
      ∀ x ∈ (ArrhythmiaDetector.addRRInterval s i a).rrIntervals,
        300 ≤ x ∧ x ≤ 2000) ∧
    (s.rrIntervals.length ≤ 50 →
      (ArrhythmiaDetector.addRRInterval s i a).rrIntervals.length ≤ 50) := by
  refine ⟨?_, ?_, ?_, ?_⟩
  · intro h
    have : i < 300 ∨ 2000 < i := by
      rcases lt_or_le i 300 with hlt | hge
      · exact Or.inl hlt
      · exact Or.inr (lt_of_not_le (fun hle => h ⟨hge, hle⟩))
    simp only [ArrhythmiaDetector.addRRInterval, if_pos this]
  · intro h1 h2
    have hnot : ¬(i < 300 ∨ 2000 < i) := by
      push_neg
      exact ⟨h1, h2⟩
    simp only [ArrhythmiaDetector.addRRInterval, if_neg hnot,
      ArrhythmiaDetector.MAX_INTERVALS]
    split_ifs <;> rfl
  · intro hall x hx
    by_cases hrange : i < 300 ∨ 2000 < i
    · simp only [ArrhythmiaDetector.addRRInterval, if_pos hrange] at hx
      exact hall x hx
    · simp only [ArrhythmiaDetector.addRRInterval, if_neg hrange] at hx
      push_neg at hrange
      have hx' : x ∈ s.rrIntervals ++ [i] := by
        revert hx
        split_ifs <;> exact fun hx => evict_subset _ _ x hx
      rcases List.mem_append.mp hx' with hm | hm
      · exact hall x hm
      · have : x = i := by simpa using hm
        subst this
        exact ⟨hrange.1, hrange.2⟩
  · intro hlen
    by_cases hrange : i < 300 ∨ 2000 < i
    · simp only [ArrhythmiaDetector.addRRInterval, if_pos hrange]
      exact hlen
    · simp only [ArrhythmiaDetector.addRRInterval, if_neg hrange,
        ArrhythmiaDetector.MAX_INTERVALS]
      have hb : (s.rrIntervals ++ [i]).length ≤ 50 + 1 := by
        simp [hlen]
      split_ifs <;> exact evict_length_le 50 _ hb

/-- C3 (witness): a 2500 ms interval is discarded unchanged; a 500 ms
interval is appended with eviction at capacity 50. -/
theorem C3_witness :
    ArrhythmiaDetector.addRRInterval ArrhythmiaDetector.initial 2500 none =
      ArrhythmiaDetector.initial ∧
    (ArrhythmiaDetector.addRRInterval ArrhythmiaDetector.initial 500 none).rrIntervals =
      evict 50 (ArrhythmiaDetector.initial.rrIntervals ++ [500]) :=
  ⟨(C3_theorem ArrhythmiaDetector.initial 2500 none).1 (by norm_num),
   (C3_theorem ArrhythmiaDetector.initial 500 none).2.1 (by norm_num) (by norm_num)⟩

lemma learn_inv (xs : List ℚ) :
    ∀ (s : ArrhythmiaDetector.State) (n : ℕ),
      s.learningPhaseCount = min n 20 → s.learningPhase = decide (n < 20) →
      (xs.foldl (fun a i => ArrhythmiaDetector.addRRInterval a i none) s).learningPhaseCount
          = min (n + ArrhythmiaDetector.countAccepted xs) 20 ∧
      (xs.foldl (fun a i => ArrhythmiaDetector.addRRInterval a i none) s).learningPhase
          = decide (n + ArrhythmiaDetector.countAccepted xs < 20) := by
  induction xs with
  | nil =>
    intro s n h1 h2
    simpa [ArrhythmiaDetector.countAccepted] using ⟨h1, h2⟩
  | cons x xs ih =>
    intro s n h1 h2
    by_cases hr : x < 300 ∨ 2000 < x
    · have hs : ArrhythmiaDetector.addRRInterval s x none = s := by
        simp [ArrhythmiaDetector.addRRInterval, hr]
      have hacc : ArrhythmiaDetector.accepts x = false := by
        rcases hr with h | h <;> simp [ArrhythmiaDetector.accepts, h]
      have hcnt : ArrhythmiaDetector.countAccepted (x :: xs)
          = ArrhythmiaDetector.countAccepted xs := by
        simp [ArrhythmiaDetector.countAccepted, List.filter_cons, hacc]
      rw [List.foldl_cons, hs, hcnt]
      exact ih s n h1 h2
    · have hacc : ArrhythmiaDetector.accepts x = true := by
        push_neg at hr
        simp [ArrhythmiaDetector.accepts]
        exact ⟨hr.1, hr.2⟩
      have hcnt : ArrhythmiaDetector.countAccepted (x :: xs)
          = 1 + ArrhythmiaDetector.countAccepted xs := by
        simp [ArrhythmiaDetector.countAccepted, List.filter_cons, hacc]
        omega
      rw [List.foldl_cons, hcnt]
      by_cases hl : s.learningPhase
      · have hn : n < 20 := by
          rw [hl] at h2
          exact of_decide_eq_true h2.symm
        have hmin : min n 20 = n := by omega
        have hstep : (ArrhythmiaDetector.addRRInterval s x none).learningPhaseCount
              = min (n + 1) 20 ∧
            (ArrhythmiaDetector.addRRInterval s x none).learningPhase
              = decide (n + 1 < 20) := by
          simp [ArrhythmiaDetector.addRRInterval, hr, hl, h1, hmin,
            ArrhythmiaDetector.LEARNING_PHASE_THRESHOLD]
          omega
        have := ih (ArrhythmiaDetector.addRRInterval s x none) (n + 1) hstep.1 hstep.2
        constructor
        · rw [this.1]; congr 1; omega
        · rw [this.2]; congr 1; simp; omega
      · have hn : ¬ n < 20 := by
          simp only [Bool.not_eq_true] at hl
          rw [hl] at h2
          exact of_decide_eq_false h2.symm
        have hstep : (ArrhythmiaDetector.addRRInterval s x none).learningPhaseCount
              = min (n + 1) 20 ∧
            (ArrhythmiaDetector.addRRInterval s x none).learningPhase
              = decide (n + 1 < 20) := by
          simp only [Bool.not_eq_true] at hl
          constructor
          · simp [ArrhythmiaDetector.addRRInterval, hr, hl, h1]
            omega
          · simp [ArrhythmiaDetector.addRRInterval, hr, hl]
            omega
        have := ih (ArrhythmiaDetector.addRRInterval s x none) (n + 1) hstep.1 hstep.2
        constructor
        · rw [this.1]; congr 1; omega
        · rw [this.2]; congr 1; simp; omega

/-- C4 (confirmed): the arrhythmia classifier starts in the Learning phase;
while Learning every `analyzeRhythm` returns `detected = false`; neither
`addRRInterval` nor `analyzeRhythm` nor `setLastPeakTime` ever moves the
classifier from Steady back to Learning, while `reset` restarts Learning;
and feeding intervals from the initial state leaves Learning exactly when
20 accepted intervals have accumulated. -/
theorem C4_theorem :
    (ArrhythmiaDetector.initial.learningPhase = true) ∧
    (∀ (s : ArrhythmiaDetector.State) (t : ℤ), s.learningPhase = true →
      (ArrhythmiaDetector.analyzeRhythm s t).1.detected = false) ∧
    (∀ (s : ArrhythmiaDetector.State) (i : ℚ) (a : Option ℚ),
      s.learningPhase = false →
      (ArrhythmiaDetector.addRRInterval s i a).learningPhase = false) ∧
    (∀ (s : ArrhythmiaDetector.State) (t : ℤ),
      (ArrhythmiaDetector.analyzeRhythm s t).2.learningPhase = s.learningPhase) ∧
    (∀ (s : ArrhythmiaDetector.State) (t : ℚ),
      (ArrhythmiaDetector.setLastPeakTime s t).learningPhase = s.learningPhase) ∧
    (∀ s : ArrhythmiaDetector.State,
      (ArrhythmiaDetector.reset s).learningPhase = true) ∧
    (∀ xs : List ℚ,
      (xs.foldl (fun a i => ArrhythmiaDetector.addRRInterval a i none)
        ArrhythmiaDetector.initial).learningPhase = false ↔
      20 ≤ ArrhythmiaDetector.countAccepted xs) := by
  refine ⟨rfl, ?_, ?_, ?_, fun s t => rfl, fun s => rfl, ?_⟩
  · intro s t h
    simp only [ArrhythmiaDetector.analyzeRhythm, h]
    split_ifs <;> simp_all
  · intro s i a h
    simp only [ArrhythmiaDetector.addRRInterval, h]
    split_ifs <;> simp_all
  · intro s t
    simp only [ArrhythmiaDetector.analyzeRhythm]
    split_ifs <;> rfl
  · intro xs
    have := learn_inv xs ArrhythmiaDetector.initial 0 (by rfl) (by rfl)
    rw [this.2]
    simp

/-- C4 (witness): the initial state is Learning and analyses there emit no
detection; a Steady state never falls back to Learning on a new interval;
and exactly twenty accepted 800 ms intervals end the Learning phase. -/
theorem C4_witness :
    (ArrhythmiaDetector.analyzeRhythm ArrhythmiaDetector.initial 5000).1.detected = false ∧
    (ArrhythmiaDetector.addRRInterval afRhythmState 800 none).learningPhase = false ∧
    ((List.replicate 20 (800 : ℚ)).foldl
      (fun a i => ArrhythmiaDetector.addRRInterval a i none)
      ArrhythmiaDetector.initial).learningPhase = false :=
  ⟨C4_theorem.2.1 ArrhythmiaDetector.initial 5000 rfl,
   C4_theorem.2.2.1 afRhythmState 800 none rfl,
   (C4_theorem.2.2.2.2.2.2 (List.replicate 20 800)).mpr (by decide)⟩

lemma rmssdSq_const {c : ℚ} (l : List ℚ) (hc : ∀ x ∈ l, x = c) :
    ArrhythmiaDetector.calculateRMSSDSq l = 0 := by
  unfold ArrhythmiaDetector.calculateRMSSDSq
  split_ifs
  · rfl
  · have hz : ((l.zip l.tail).map (fun p => (p.2 - p.1) ^ 2)).sum = 0 := by
      apply List.sum_eq_zero
      intro y hy
      obtain ⟨p, hp, rfl⟩ := List.mem_map.mp hy
      obtain ⟨e1, e2⟩ := zip_tail_const l hc p hp
      simp [e1, e2]
    rw [hz, zero_div]

lemma rrVariation_const {c : ℚ} (l : List ℚ) (hc : ∀ x ∈ l, x = c) :
    ArrhythmiaDetector.calculateRRVariation l = 0 := by
  unfold ArrhythmiaDetector.calculateRRVariation
  split_ifs
  · rfl
  · have hz : ((l.zip l.tail).map (fun p => |p.2 - p.1|)).sum = 0 := by
      apply List.sum_eq_zero
      intro y hy
      obtain ⟨p, hp, rfl⟩ := List.mem_map.mp hy
      obtain ⟨e1, e2⟩ := zip_tail_const l hc p hp
      simp [e1, e2]
    simp only [hz, zero_div]

lemma detectPAC_const {c : ℚ} (l : List ℚ) (hc : ∀ x ∈ l, x = c) (hpos : 0 < c) :
    ArrhythmiaDetector.detectPAC l = false := by
  unfold ArrhythmiaDetector.detectPAC
  split_ifs
  · rfl
  · rw [List.any_eq_false]
    intro i hi
    have hilen : i < l.length := List.mem_range.mp hi
    by_cases h2 : 2 ≤ i
    · have e1 : l[i - 1]?.getD 0 = c := getDq_const l hc (by omega)
      have e2 : l[i - 2]?.getD 0 = c := getDq_const l hc (by omega)
      have hno : ¬(c < 0.8 * c) := by nlinarith
      simp [e1, e2, hno]
    · simp [h2]

lemma detectPVC_const {c : ℚ} (l amps : List ℚ) (hc : ∀ x ∈ l, x = c) (hpos : 0 < c) :
    ArrhythmiaDetector.detectPVC l amps = false := by
  unfold ArrhythmiaDetector.detectPVC
  split_ifs with hlen
  · rfl
  · push_neg at hlen
    rw [List.any_eq_false]
    intro i hi
    have hilen : i < l.length := List.mem_range.mp hi
    have hlen4 : 4 ≤ l.length := hlen.1
    by_cases h2 : 2 ≤ i
    · have e0 : l[i]?.getD 0 = c := getDq_const l hc hilen
      have hsum : l.sum = l.length * c := sum_const_list l hc
      have hne : ((l.length : ℚ) - 1) ≠ 0 := by
        have h4 : (4 : ℚ) ≤ (l.length : ℚ) := by exact_mod_cast hlen4
        intro hzero
        rw [sub_eq_zero] at hzero
        rw [hzero] at h4
        norm_num at h4
      have havg : (l.sum - c) / ((l.length : ℚ) - 1) = c := by
        rw [hsum]
        field_simp
        ring
      have hno : ¬(c < 0.8 * ((l.sum - c) / ((l.length : ℚ) - 1))) := by
        rw [havg]
        nlinarith
      simp [e0, hno]
    · simp [h2]

lemma detectAF_zero (rrv : ℚ) (l : List ℚ) :
    ArrhythmiaDetector.detectAF 0 rrv l = false := by
  unfold ArrhythmiaDetector.detectAF
  have : ¬((100 : ℚ) ^ 2 < 0) := by norm_num
  simp [this]

/-- C5 (confirmed): on a constant valid RR history every statistic
degenerates — the squared RMSSD is 0 (hence RMSSD is 0), the RR variation
is 0, none of the PAC / PVC / AF detectors fires — and `analyzeRhythm`
returns `detected = false` at every time, in Steady state or not. -/
theorem C5_theorem (s : ArrhythmiaDetector.State) (c : ℚ)
    (hconst : ∀ x ∈ s.rrIntervals, x = c) (h300 : 300 ≤ c) (_h2000 : c ≤ 2000) :
    ArrhythmiaDetector.calculateRMSSDSq s.rrIntervals = 0 ∧
    ArrhythmiaDetector.calculateRRVariation s.rrIntervals = 0 ∧
    ArrhythmiaDetector.detectPAC s.rrIntervals = false ∧
    ArrhythmiaDetector.detectPVC s.rrIntervals s.amplitudes = false ∧
    ArrhythmiaDetector.detectAF (ArrhythmiaDetector.calculateRMSSDSq s.rrIntervals)
      (ArrhythmiaDetector.calculateRRVariation s.rrIntervals) s.rrIntervals = false ∧
    (∀ t : ℤ, (ArrhythmiaDetector.analyzeRhythm s t).1.detected = false) := by
  have hpos : 0 < c := by linarith
  have h1 := rmssdSq_const s.rrIntervals hconst
  have h2 := rrVariation_const s.rrIntervals hconst
  have h3 := detectPAC_const s.rrIntervals hconst hpos
  have h4 := detectPVC_const s.rrIntervals s.amplitudes hconst hpos
  have h5 : ArrhythmiaDetector.detectAF
      (ArrhythmiaDetector.calculateRMSSDSq s.rrIntervals)
      (ArrhythmiaDetector.calculateRRVariation s.rrIntervals) s.rrIntervals = false := by
    rw [h1]
    exact detectAF_zero _ _
  refine ⟨h1, h2, h3, h4, h5, ?_⟩
  intro t
  simp only [ArrhythmiaDetector.analyzeRhythm]
  split_ifs <;> simp_all

/-- C5 (witness): a Steady-state detector holding eight 800 ms intervals
reports zero statistics and no detection. -/
theorem C5_witness :
    ArrhythmiaDetector.calculateRMSSDSq constantRhythmState.rrIntervals = 0 ∧
    (ArrhythmiaDetector.analyzeRhythm constantRhythmState 5000).1.detected = false := by
  have h := C5_theorem constantRhythmState 800 (by decide) (by norm_num) (by norm_num)
  exact ⟨h.1, h.2.2.2.2.2 5000⟩

lemma addRR_lastAnalysisTime (s : ArrhythmiaDetector.State) (i : ℚ) (a : Option ℚ) :
    (ArrhythmiaDetector.addRRInterval s i a).lastAnalysisTime = s.lastAnalysisTime := by
  simp only [ArrhythmiaDetector.addRRInterval]
  split_ifs <;> rfl

lemma analyze_gated (s : ArrhythmiaDetector.State) (t : ℤ)
    (h : t - s.lastAnalysisTime < 1000) :
    (ArrhythmiaDetector.analyzeRhythm s t).1.detected = false ∧
    (ArrhythmiaDetector.analyzeRhythm s t).2 = s := by
  simp [ArrhythmiaDetector.analyzeRhythm, ArrhythmiaDetector.ANALYSIS_COOLDOWN_MS, h]

lemma analyze_not_gated_state (s : ArrhythmiaDetector.State) (t : ℤ)
    (h : ¬(t - s.lastAnalysisTime < 1000)) :
    (ArrhythmiaDetector.analyzeRhythm s t).2 = { s with lastAnalysisTime := t } := by
  simp only [ArrhythmiaDetector.analyzeRhythm, ArrhythmiaDetector.ANALYSIS_COOLDOWN_MS]
  split_ifs <;> rfl

lemma cooldown_inv (ops : List ArrhythmiaDetector.Op) :
    ∀ (s : ArrhythmiaDetector.State) (t1 : ℤ), s.lastAnalysisTime = t1 →
      (∀ op ∈ ops, ∀ t, op = ArrhythmiaDetector.Op.analyze t → t < t1 + 1000) →
      (ops.foldl ArrhythmiaDetector.step s).lastAnalysisTime = t1 := by
  induction ops with
  | nil => intro s t1 h _; exact h
  | cons op ops ih =>
    intro s t1 h hops
    rw [List.foldl_cons]
    have hrest : ∀ op' ∈ ops, ∀ t, op' = ArrhythmiaDetector.Op.analyze t → t < t1 + 1000 :=
      fun op' hm => hops op' (by simp [hm])
    cases op with
    | addRR i a =>
      exact ih _ t1 (by rw [ArrhythmiaDetector.step, addRR_lastAnalysisTime, h]) hrest
    | setPeak tp =>
      exact ih _ t1 (by rw [ArrhythmiaDetector.step]; exact h) hrest
    | analyze t =>
      have htlt : t < t1 + 1000 := hops _ (by simp) t rfl
      have hgate : t - s.lastAnalysisTime < 1000 := by omega
      have hstep : ArrhythmiaDetector.step s (ArrhythmiaDetector.Op.analyze t) = s := by
        rw [ArrhythmiaDetector.step]
        exact (analyze_gated s t hgate).2
      rw [hstep]
      exact ih s t1 h hrest

/-- C6 (confirmed): if an `analyzeRhythm` call at time `t1` reports a
detection, then — whatever interval feeds, peak updates, and intermediate
analyses (all before `t1 + 1000`) happen in between — any second analysis
at a time `t2` less than 1000 ms after `t1` reports `detected = false`:
at most one detection per cooldown window. -/
theorem C6_theorem (s : ArrhythmiaDetector.State) (t1 t2 : ℤ)
    (ops : List ArrhythmiaDetector.Op)
    (hops : ∀ op ∈ ops, ∀ t, op = ArrhythmiaDetector.Op.analyze t → t < t1 + 1000)
    (ht : t2 - t1 < 1000)
    (h1 : (ArrhythmiaDetector.analyzeRhythm s t1).1.detected = true) :
    (ArrhythmiaDetector.analyzeRhythm
      (ops.foldl ArrhythmiaDetector.step (ArrhythmiaDetector.analyzeRhythm s t1).2)
      t2).1.detected = false := by
  have hng : ¬(t1 - s.lastAnalysisTime < 1000) := by
    intro hg
    rw [(analyze_gated s t1 hg).1] at h1
    exact Bool.false_ne_true h1
  have hstate : (ArrhythmiaDetector.analyzeRhythm s t1).2.lastAnalysisTime = t1 := by
    rw [analyze_not_gated_state s t1 hng]
  have hfold := cooldown_inv ops _ t1 hstate hops
  exact (analyze_gated _ t2 (by omega)).1

/-- C6 (witness): a detector holding an AF-patterned history detects at
time 2000 and is silenced at time 2500, inside the cooldown window. -/
theorem C6_witness :
    (ArrhythmiaDetector.analyzeRhythm
      (([] : List ArrhythmiaDetector.Op).foldl ArrhythmiaDetector.step
        (ArrhythmiaDetector.analyzeRhythm afRhythmState 2000).2)
      2500).1.detected = false :=
  C6_theorem afRhythmState 2000 2500 [] (by simp) (by norm_num) (by decide)

/-- C7 (amended): every SpO2 value the non-fallback path of
`VitalSignsProcessor.calculateActualSpO2` computes lies in [85, 98] —
inside the claimed [85, 100] band and never above 98 — while the fallback
paths return the previous `lastSpO2` unchanged (which starts at 0, see
`C7_counterexample`); and `SpO2Processor.processValue` always returns a
value in [90, 99] (inside [85, 100], but reaching up to 99, not 98),
whatever buffer-size and smoothing constants it is configured with. -/
theorem C7_theorem :
    (∀ (s : VitalSignsProcessor.State) (vals : List ℚ),
      VitalSignsProcessor.calculateActualSpO2 s vals = s.lastSpO2 ∨
      (85 ≤ VitalSignsProcessor.calculateActualSpO2 s vals ∧
       VitalSignsProcessor.calculateActualSpO2 s vals ≤ 98)) ∧
    (∀ (B : ℕ) (A : ℚ) (st : SpO2Processor.State) (v : ℚ),
      90 ≤ (SpO2Processor.processValue B A st v).1 ∧
      (SpO2Processor.processValue B A st v).1 ≤ 99) := by
  constructor
  · intro s vals
    simp only [VitalSignsProcessor.calculateActualSpO2]
    split_ifs
    · exact Or.inl rfl
    · exact Or.inl rfl
    · exact Or.inl rfl
    · exact Or.inl rfl
    · refine Or.inr ⟨le_min (by norm_num) (le_max_left 85 _), min_le_left _ _⟩
  · intro B A st v
    simp only [SpO2Processor.processValue]
    exact ⟨le_max_left 90 _, max_le (by norm_num) (min_le_left 99 _)⟩

set_option maxRecDepth 10000 in
/-- C7 (counterexample): running the processor from its initial state on 61
identical samples of value 100 establishes the baseline (at sample 60) and
then surfaces an SpO2 of 0 — a produced value outside the claimed
[85, 100] band, because the perfusion-rejection fallback returns the
initial `lastSpO2 = 0` even after the baseline is established. -/
theorem C7_counterexample :
    (VitalSignsProcessor.processTrace (VitalSignsProcessor.initial 0)
      (List.replicate 61 100)).2.baselineEstablished = true ∧
    ((VitalSignsProcessor.processTrace (VitalSignsProcessor.initial 0)
      (List.replicate 61 100)).1.getLast?).map VitalSignsProcessor.Output.spo2
      = some 0 ∧
    ¬((85 : ℚ) ≤ 0) := by
  refine ⟨by decide, by decide, by norm_num⟩

/-- The rejection conditions of `calculateActualSpO2` on the 60-sample
analysis window: near-zero DC, perfusion index below the minimum
threshold, or fewer than 2 detected peaks. -/
def spo2WindowRejected (vals : List ℚ) : Prop :=
  let recentValues := vals.drop (vals.length - 60)
  VitalSignsProcessor.calculateDC recentValues = 0 ∨
  VitalSignsProcessor.calculateAC recentValues /
      VitalSignsProcessor.calculateDC recentValues * 200 <
    VitalSignsProcessor.PERFUSION_INDEX_THRESHOLD * 100 ∨
  (VitalSignsProcessor.findPeaksAndValleys recentValues).1.length < 2

/-- C8 (confirmed): whenever the analysis window has DC = 0, a perfusion
index below threshold, or fewer than 2 peaks, `calculateActualSpO2`
computes no new estimate and returns the stored `lastSpO2` (0 if nothing
was ever accepted); in particular it does so on every window of identical
conditioned samples, where AC = 0. -/
theorem C8_theorem :
    (∀ (s : VitalSignsProcessor.State) (vals : List ℚ),
      spo2WindowRejected vals →
      VitalSignsProcessor.calculateActualSpO2 s vals = s.lastSpO2) ∧
    (∀ (s : VitalSignsProcessor.State) (n : ℕ) (c : ℚ),
      VitalSignsProcessor.calculateActualSpO2 s (List.replicate n c) = s.lastSpO2) := by
  have hmain : ∀ (s : VitalSignsProcessor.State) (vals : List ℚ),
      spo2WindowRejected vals →
      VitalSignsProcessor.calculateActualSpO2 s vals = s.lastSpO2 := by
    intro s vals h
    simp only [spo2WindowRejected] at h
    simp only [VitalSignsProcessor.calculateActualSpO2]
    split_ifs with h1 h2 h3 h4
    · rfl
    · rfl
    · rfl
    · rfl
    · rcases h with hdc | hperf | hpk
      · exact absurd hdc h2
      · exact absurd hperf h3
      · exact absurd hpk h4
  refine ⟨hmain, ?_⟩
  intro s n c
  apply hmain
  simp only [spo2WindowRejected]
  by_cases hdc : VitalSignsProcessor.calculateDC
      ((List.replicate n c).drop ((List.replicate n c).length - 60)) = 0
  · exact Or.inl hdc
  · refine Or.inr (Or.inl ?_)
    have hac : VitalSignsProcessor.calculateAC
        ((List.replicate n c).drop ((List.replicate n c).length - 60)) = 0 := by
      set m := (List.replicate n c).length - 60 with hm
      have hconst : ∀ x ∈ (List.replicate n c).drop m, x = c := by
        intro x hx
        exact (List.eq_of_mem_replicate (List.mem_of_mem_drop hx))
      unfold VitalSignsProcessor.calculateAC
      by_cases hne : (List.replicate n c).drop m = []
      · rw [hne]
        norm_num [listMax, listMin]
      · rw [listMax_const _ hconst hne, listMin_const _ hconst hne]
        ring
    rw [hac]
    norm_num [VitalSignsProcessor.PERFUSION_INDEX_THRESHOLD]

lemma caso2_mst (a1 : List ℚ) (a2 a3 a4 : ℚ) (a5 : Bool) (a6 a7 : List ℚ)
    (t t2 : ℤ) (v : List ℚ) :
    VitalSignsProcessor.calculateActualSpO2 ⟨a1, a2, a3, a4, a5, a6, a7, t⟩ v =
    VitalSignsProcessor.calculateActualSpO2 ⟨a1, a2, a3, a4, a5, a6, a7, t2⟩ v := by
  simp only [VitalSignsProcessor.calculateActualSpO2]

lemma gss_mst (a1 : List ℚ) (a2 a3 a4 : ℚ) (a5 : Bool) (a6 a7 : List ℚ)
    (t t2 : ℤ) :
    VitalSignsProcessor.getSmoothedSpO2 ⟨a1, a2, a3, a4, a5, a6, a7, t⟩ =
    VitalSignsProcessor.getSmoothedSpO2 ⟨a1, a2, a3, a4, a5, a6, a7, t2⟩ := by
  simp only [VitalSignsProcessor.getSmoothedSpO2]

lemma casbp_mst (a1 : List ℚ) (a2 a3 a4 : ℚ) (a5 : Bool) (a6 a7 : List ℚ)
    (t t2 : ℤ) (v : List ℚ) :
    VitalSignsProcessor.calculateActualBloodPressure ⟨a1, a2, a3, a4, a5, a6, a7, t⟩ v =
    ((VitalSignsProcessor.calculateActualBloodPressure ⟨a1, a2, a3, a4, a5, a6, a7, t2⟩ v).1,
     { (VitalSignsProcessor.calculateActualBloodPressure ⟨a1, a2, a3, a4, a5, a6, a7, t2⟩ v).2 with
       measurementStartTime := t }) := by
  simp only [VitalSignsProcessor.calculateActualBloodPressure]
  split_ifs <;> rfl

lemma ebl_mst (a1 : List ℚ) (a2 a3 a4 : ℚ) (a5 : Bool) (a6 a7 : List ℚ)
    (t t2 : ℤ) :
    VitalSignsProcessor.establishBaseline ⟨a1, a2, a3, a4, a5, a6, a7, t⟩ =
    { VitalSignsProcessor.establishBaseline ⟨a1, a2, a3, a4, a5, a6, a7, t2⟩ with
      measurementStartTime := t } := by
  simp only [VitalSignsProcessor.establishBaseline,
    VitalSignsProcessor.calculateActualBloodPressure]
  split_ifs <;> rfl

lemma main_mst (a1 : List ℚ) (a2 a3 a4 : ℚ) (a5 : Bool) (a6 a7 : List ℚ)
    (t t2 : ℤ) :
    VitalSignsProcessor.processSignalMain ⟨a1, a2, a3, a4, a5, a6, a7, t⟩ =
    ((VitalSignsProcessor.processSignalMain ⟨a1, a2, a3, a4, a5, a6, a7, t2⟩).1,
     { (VitalSignsProcessor.processSignalMain ⟨a1, a2, a3, a4, a5, a6, a7, t2⟩).2 with
       measurementStartTime := t }) := by
  simp only [VitalSignsProcessor.processSignalMain]
  rw [caso2_mst _ _ _ _ _ _ _ t t2, gss_mst _ _ _ _ _ _ _ t t2,
    casbp_mst _ _ _ _ _ _ _ t t2]

set_option maxHeartbeats 1600000 in
lemma processSignal_mst (a1 : List ℚ) (a2 a3 a4 : ℚ) (a5 : Bool) (a6 a7 : List ℚ)
    (t t2 : ℤ) (x : ℚ) :
    VitalSignsProcessor.processSignal ⟨a1, a2, a3, a4, a5, a6, a7, t⟩ x =
    ((VitalSignsProcessor.processSignal ⟨a1, a2, a3, a4, a5, a6, a7, t2⟩ x).1,
     { (VitalSignsProcessor.processSignal ⟨a1, a2, a3, a4, a5, a6, a7, t2⟩ x).2 with
       measurementStartTime := t }) := by
  simp only [VitalSignsProcessor.processSignal]
  rw [ebl_mst _ _ _ _ _ _ _ t t2]
  split_ifs
  · rfl
  · exact main_mst _ _ _ _ _ _ _ t _
  · rfl
  · exact main_mst _ _ _ _ _ _ _ t _

set_option maxHeartbeats 800000 in
lemma processTrace_mst (xs : List ℚ) :
    ∀ (a1 : List ℚ) (a2 a3 a4 : ℚ) (a5 : Bool) (a6 a7 : List ℚ) (t t2 : ℤ),
      (VitalSignsProcessor.processTrace ⟨a1, a2, a3, a4, a5, a6, a7, t⟩ xs).1 =
        (VitalSignsProcessor.processTrace ⟨a1, a2, a3, a4, a5, a6, a7, t2⟩ xs).1 ∧
      (VitalSignsProcessor.processTrace ⟨a1, a2, a3, a4, a5, a6, a7, t⟩ xs).2 =
        { (VitalSignsProcessor.processTrace ⟨a1, a2, a3, a4, a5, a6, a7, t2⟩ xs).2 with
          measurementStartTime := t } := by
  induction xs with
  | nil =>
    intro a1 a2 a3 a4 a5 a6 a7 t t2
    exact ⟨rfl, rfl⟩
  | cons x xs ih =>
    intro a1 a2 a3 a4 a5 a6 a7 t t2
    simp only [VitalSignsProcessor.processTrace]
    rw [processSignal_mst _ _ _ _ _ _ _ t t2 x]
    have ihh := ih
      (VitalSignsProcessor.processSignal ⟨a1, a2, a3, a4, a5, a6, a7, t2⟩ x).2.ppgValues
      (VitalSignsProcessor.processSignal ⟨a1, a2, a3, a4, a5, a6, a7, t2⟩ x).2.lastSpO2
      (VitalSignsProcessor.processSignal ⟨a1, a2, a3, a4, a5, a6, a7, t2⟩ x).2.lastSystolic
      (VitalSignsProcessor.processSignal ⟨a1, a2, a3, a4, a5, a6, a7, t2⟩ x).2.lastDiastolic
      (VitalSignsProcessor.processSignal ⟨a1, a2, a3, a4, a5, a6, a7, t2⟩ x).2.baselineEstablished
      (VitalSignsProcessor.processSignal ⟨a1, a2, a3, a4, a5, a6, a7, t2⟩ x).2.movingAverageSpO2
      (VitalSignsProcessor.processSignal ⟨a1, a2, a3, a4, a5, a6, a7, t2⟩ x).2.smaBuffer
      t
      (VitalSignsProcessor.processSignal ⟨a1, a2, a3, a4, a5, a6, a7, t2⟩ x).2.measurementStartTime
    constructor
    · rw [ihh.1]
    · rw [ihh.2]

lemma calc_fst_state_free (s s2 : BloodPressureCalculator.State) (vals : List ℚ)
    (det : BloodPressureCalculator.PeakDetectionResult) :
    (BloodPressureCalculator.calculate s vals det).1 =
    (BloodPressureCalculator.calculate s2 vals det).1 := by
  simp only [BloodPressureCalculator.calculate]
  split_ifs <;> rfl

/-- C9 (confirmed): `reset` is idempotent on the arrhythmia detector, the
blood-pressure calculator (whatever random draws each reset receives) and
the vital-signs processor (whatever `Date.now()` readings it receives);
each reset restores the constructor state; and replaying an input stream
after a reset reproduces the from-construction outputs bit-for-bit —
`processTrace` outputs are independent of the stored start time, and
`calculate` results are independent of the calculator state. -/
theorem C9_theorem :
    (∀ s, ArrhythmiaDetector.reset (ArrhythmiaDetector.reset s) =
      ArrhythmiaDetector.reset s) ∧
    (∀ s, ArrhythmiaDetector.reset s = ArrhythmiaDetector.initial) ∧
    (∀ (r1 r2 r3 r4 : ℚ) (s : BloodPressureCalculator.State),
      BloodPressureCalculator.reset r1 r2 (BloodPressureCalculator.reset r3 r4 s) =
        BloodPressureCalculator.reset r1 r2 s) ∧
    (∀ (r1 r2 : ℚ) (s : BloodPressureCalculator.State),
      BloodPressureCalculator.reset r1 r2 s = BloodPressureCalculator.initial r1 r2) ∧
    (∀ (t t2 : ℤ) (s : VitalSignsProcessor.State),
      VitalSignsProcessor.reset t (VitalSignsProcessor.reset t2 s) =
        VitalSignsProcessor.reset t s) ∧
    (∀ (t : ℤ) (s : VitalSignsProcessor.State),
      VitalSignsProcessor.reset t s = VitalSignsProcessor.initial t) ∧
    (∀ (t t2 : ℤ) (s : VitalSignsProcessor.State) (xs : List ℚ),
      (VitalSignsProcessor.processTrace (VitalSignsProcessor.reset t s) xs).1 =
        (VitalSignsProcessor.processTrace (VitalSignsProcessor.initial t2) xs).1) ∧
    (∀ (s : BloodPressureCalculator.State) (r1 r2 r3 r4 : ℚ) (vals : List ℚ)
        (det : BloodPressureCalculator.PeakDetectionResult),
      (BloodPressureCalculator.calculate
        (BloodPressureCalculator.reset r1 r2 s) vals det).1 =
        (BloodPressureCalculator.calculate
          (BloodPressureCalculator.initial r3 r4) vals det).1) := by
  refine ⟨fun s => rfl, fun s => rfl, fun r1 r2 r3 r4 s => rfl,
    fun r1 r2 s => rfl, fun t t2 s => rfl, fun t s => rfl, ?_, ?_⟩
  · intro t t2 s xs
    exact (processTrace_mst xs [] 0 0 0 false [] [] t t2).1
  · intro s r1 r2 r3 r4 vals det
    exact calc_fst_state_free _ _ vals det

/-- C10 (confirmed): the blood-pressure stabilization step is not
deterministic: on one fixed stabilizer state (two stored 120/80 readings)
and one fixed input (raw reading 120/80 of quality 1), two runs of
`stabilizeBloodPressure` whose `Math.random()` draws differ return
different pressure strings (120/80 versus 122/80); and
`BloodPressureCalculator.reset` stores whatever fresh random draws it is
given, so two resets with different draws leave different states. -/
theorem C10_theorem :
    (BPStabilizer.stabilizeBloodPressure 0.5 0.5 twoReadingsState (.pair 120 80) 1).1 ≠
      (BPStabilizer.stabilizeBloodPressure 0.9 0.5 twoReadingsState (.pair 120 80) 1).1 ∧
    (BPStabilizer.stabilizeBloodPressure 0.5 0.5 twoReadingsState (.pair 120 80) 1).1 =
      .pair 120 80 ∧
    (BPStabilizer.stabilizeBloodPressure 0.9 0.5 twoReadingsState (.pair 120 80) 1).1 =
      .pair 122 80 ∧
    BloodPressureCalculator.reset 1 0 (BloodPressureCalculator.initial 0 0) ≠
      BloodPressureCalculator.reset 0 0 (BloodPressureCalculator.initial 0 0) := by
  refine ⟨by decide, by decide, by decide, by decide⟩

set_option maxRecDepth 10000 in
/-- C8 (witness): a flat window of 60 samples at value 100 (perfusion
index 0, below the 5-point threshold) leaves the estimate at the stored
`lastSpO2`, here 0. -/
theorem C8_witness :
    VitalSignsProcessor.calculateActualSpO2
      { VitalSignsProcessor.initial 0 with baselineEstablished := true }
      (List.replicate 60 100) =
    ({ VitalSignsProcessor.initial 0 with
        baselineEstablished := true } : VitalSignsProcessor.State).lastSpO2 :=
  C8_theorem.1 { VitalSignsProcessor.initial 0 with baselineEstablished := true }
    (List.replicate 60 100)
    (Or.inr (Or.inl (by decide)))

end ClaimTheorems
